import Mathlib

/-!
# Verification of the rail_back report backend

Shallow embedding of `src/app.py` (a Flask + SQL report/dispatch backend).
The `reports` table is modelled as a `List Report`, the `users` table as a
`List UserRow`; each SQL statement is embedded by its row-level semantics
(SQL `col = ?` equality is `NULL`-rejecting, modelled by `sqlEq`).

Naming of enum values follows the source's Korean string literals:
`"신고"` is the spec's `REPORT` type, `"출동"` is `DISPATCHED`.
-/

namespace RailBack

/-- HTTP-level outcome of a write endpoint: `ok` is a 200 JSON success,
`err400` is the 400 error response. -/
inductive ApiStatus where
  | ok : ApiStatus
  | err400 : ApiStatus
deriving DecidableEq, Repr

/-- One row of the `reports` table (schema from `init_db` in `src/app.py`).
Columns that every insert populates with a string (`user_id`, `type`,
`extra`, `for_userpage_type`, `timestamp`) are `String`; columns that can be
`NULL` are `Option`. `REAL` columns are modelled as `Option Rat`. -/
structure Report where
  id : Int
  user_id : String
  type : String
  photo_filename : Option String
  location : Option String
  lat : Option Rat
  lng : Option Rat
  timestamp : String
  ai_stage : Option Int
  extra : String
  dispatch_user_id : Option String
  for_userpage_type : String
  for_userpage_stage : Option Int
deriving DecidableEq, Repr

/-- One row of the `users` table (`init_user_table`): `user_id` is `UNIQUE`,
`password` stores the hex digest of the password. -/
structure UserRow where
  user_id : String
  password : String
deriving DecidableEq, Repr

/-- SQL equality `a = b`: `NULL` compares equal to nothing (the comparison
yields `NULL`, which a `WHERE` clause rejects). -/
def sqlEq {α : Type} [DecidableEq α] : Option α → Option α → Bool
  | some a, some b => decide (a = b)
  | _, _ => false

/-- The `AUTOINCREMENT` id assignment: one more than the largest id ever used;
since no report is ever deleted, this is `max id + 1` (and `1` on an empty
table). -/
def nextId (db : List Report) : Int :=
  (db.foldr (fun r m => max r.id m) 0) + 1

/-- The JSON body of `POST /api/report` as read by `save_report`:
every field is optional (`none` = absent from the JSON object). -/
structure ReportRequest where
  user_id : Option String
  type : Option String
  photo_filename : Option String
  location : Option String
  lat : Option Rat
  lng : Option Rat
  timestamp : Option String
  ai_stage : Option Int
  extra : Option String
  dispatch_user_id : Option String
  for_userpage_type : Option String
  for_userpage_stage : Option Int
deriving DecidableEq, Repr

/-- Embedding of `save_report` (`POST /api/report`, `src/app.py` lines
139-168): applies
the `data.get` defaults (`user_id` → `"guest"`, `type` → `""`,
`for_userpage_type` → the type, `for_userpage_stage` → the ai_stage,
`extra` → `""`), replaces an absent or empty `timestamp` by the
server-generated KST string `now`, and unconditionally inserts one row.
There is no validation; the endpoint always answers `{'result': 'success'}`. -/
def save_report (db : List Report) (req : ReportRequest) (now : String) :
    ApiStatus × List Report :=
  let user_id := req.user_id.getD "guest"
  let type_ := req.type.getD ""
  let fut := req.for_userpage_type.getD type_
  let fus := match req.for_userpage_stage with
    | some s => some s
    | none => req.ai_stage
  let timestamp := match req.timestamp with
    | some t => if t = "" then now else t
    | none => now
  (ApiStatus.ok,
    db ++ [{ id := nextId db
             user_id := user_id
             type := type_
             photo_filename := req.photo_filename
             location := req.location
             lat := req.lat
             lng := req.lng
             timestamp := timestamp
             ai_stage := req.ai_stage
             extra := req.extra.getD ""
             dispatch_user_id := req.dispatch_user_id
             for_userpage_type := fut
             for_userpage_stage := fus }])

/-- Row-level effect of the `UPDATE` in `update_report`
(`POST /api/report_update`, `src/app.py` lines 170-181), the spec's
`Dispatch`: `UPDATE reports SET type='출동', ai_stage=1, dispatch_user_id=?
WHERE location=? AND type='신고'`. -/
def dispatchRow (location dispatch_user_id : Option String) (r : Report) :
    Report :=
  if sqlEq r.location location ∧ r.type = "신고" then
    { r with type := "출동", ai_stage := some 1,
             dispatch_user_id := dispatch_user_id }
  else r

/-- Embedding of `update_report` itself: maps the row update over the
table and always answers `{'result': 'updated'}`. -/
def update_report (db : List Report) (location : Option String)
    (dispatch_user_id : Option String) : ApiStatus × List Report :=
  (ApiStatus.ok, db.map (dispatchRow location dispatch_user_id))

/-- Python truthiness of the JSON `id` field (`not report_id`):
absent/`null` and `0` are falsy. -/
def truthyId : Option Int → Bool
  | none => false
  | some n => decide (n ≠ 0)

/-- Embedding of `admin_approve` (`POST /api/admin_approve`, `src/app.py` lines 409-423),
the spec's `AdminDecide`: answers 400 when `not report_id or stage not in
[3, 5]`; otherwise runs
`UPDATE reports SET ai_stage=?, for_userpage_stage=? WHERE id=?` and answers
success — it never checks that a row with that id exists. -/
def admin_approve (db : List Report) (report_id : Option Int)
    (stage : Option Int) : ApiStatus × List Report :=
  if ¬ truthyId report_id = true ∨ (stage ≠ some 3 ∧ stage ≠ some 5) then
    (ApiStatus.err400, db)
  else
    (ApiStatus.ok,
      db.map fun r =>
        if sqlEq (some r.id) report_id then
          { r with ai_stage := stage, for_userpage_stage := stage }
        else r)

/-- Row predicate of the `user_stats` report-count query
(`WHERE user_id=? AND for_userpage_type='신고' AND for_userpage_stage=3`). -/
def statsReportPred (user_id : String) (r : Report) : Bool :=
  decide (r.user_id = user_id ∧ r.for_userpage_type = "신고" ∧
    r.for_userpage_stage = some 3)

/-- Row predicate of the `user_stats` dispatch-count query
(`WHERE dispatch_user_id=? AND type='출동' AND ai_stage=1`). -/
def statsDispatchPred (user_id : String) (r : Report) : Bool :=
  decide (sqlEq r.dispatch_user_id (some user_id) = true ∧ r.type = "출동" ∧
    r.ai_stage = some 1)

/-- Response of `GET /api/user_stats`. -/
structure UserStatsOut where
  report_count : Nat
  dispatch_count : Nat
deriving DecidableEq, Repr

/-- Embedding of `user_stats` (`GET /api/user_stats`, `src/app.py` lines 282-301), the
spec's per-user `Stats`: two `COUNT(*)` queries. -/
def user_stats (db : List Report) (user_id : String) : UserStatsOut :=
  { report_count := (db.filter (statsReportPred user_id)).length
    dispatch_count := (db.filter (statsDispatchPred user_id)).length }

/-- Row predicate of the `user_point` report-count query (`src/app.py`
line 307); its SQL text is identical to the one in `user_stats`. -/
def pointReportPred (user_id : String) (r : Report) : Bool :=
  decide (r.user_id = user_id ∧ r.for_userpage_type = "신고" ∧
    r.for_userpage_stage = some 3)

/-- Row predicate of the `user_point` dispatch-count query (`src/app.py`
line 309); its SQL text is identical to the one in `user_stats`. -/
def pointDispatchPred (user_id : String) (r : Report) : Bool :=
  decide (sqlEq r.dispatch_user_id (some user_id) = true ∧ r.type = "출동" ∧
    r.ai_stage = some 1)

/-- Embedding of `user_point` (`GET /api/user_point`, `src/app.py` lines 303-312), the
spec's `Points`: `report_count * 5000 + dispatch_count * 10000`. -/
def user_point (db : List Report) (user_id : String) : Nat :=
  (db.filter (pointReportPred user_id)).length * 5000 +
    (db.filter (pointDispatchPred user_id)).length * 10000

/-- Outcome of `POST /api/register`: success, 400 for a missing/empty field
(`'아이디/비밀번호 필요'`), or 400 for a duplicate `user_id`
(`'이미 존재하는 아이디'`, the spec's `ConflictError`). -/
inductive RegResult where
  | ok : RegResult
  | errMissing : RegResult
  | errDuplicate : RegResult
deriving DecidableEq, Repr

/-- Outcome of `POST /api/login`: success (with an ephemeral token, not
modelled), or one of the three 400 errors. -/
inductive LoginResult where
  | ok : LoginResult
  | errMissing : LoginResult
  | errNoUser : LoginResult
  | errWrongPassword : LoginResult
deriving DecidableEq, Repr

/-- Embedding of `register` (`POST /api/register`, `src/app.py` lines 315-329),
parametrised by the `hash` digest function (SHA-256 in the source): rejects
falsy (absent or empty) credentials, then inserts; the `UNIQUE` constraint
on `user_id` makes a duplicate insert raise `IntegrityError`, answered as a
400 with the table unchanged. -/
def register (hash : String → String) (users : List UserRow)
    (user_id password : Option String) : RegResult × List UserRow :=
  match user_id, password with
  | some uid, some pw =>
    if uid = "" ∨ pw = "" then (RegResult.errMissing, users)
    else if users.any (fun u => decide (u.user_id = uid)) then
      (RegResult.errDuplicate, users)
    else (RegResult.ok, users ++ [{ user_id := uid, password := hash pw }])
  | _, _ => (RegResult.errMissing, users)

/-- Embedding of `login` (`POST /api/login`, `src/app.py` lines 332-348): rejects falsy
credentials, fetches the first row with the given `user_id`
(`SELECT * ... fetchone()`), and compares the stored digest with
`hash password`. -/
def login (hash : String → String) (users : List UserRow)
    (user_id password : Option String) : LoginResult :=
  match user_id, password with
  | some uid, some pw =>
    if uid = "" ∨ pw = "" then LoginResult.errMissing
    else
      match users.find? (fun u => decide (u.user_id = uid)) with
      | none => LoginResult.errNoUser
      | some u =>
        if u.password ≠ hash pw then LoginResult.errWrongPassword
        else LoginResult.ok
  | _, _ => LoginResult.errMissing

/-- The relative-age bucket computed by the feed endpoints, with the value
interpolated into the Korean string. -/
inductive AgeBucket where
  | secondsAgo : Nat → AgeBucket
  | minutesAgo : Nat → AgeBucket
  | hoursAgo : Nat → AgeBucket
  | daysAgo : Nat → AgeBucket
  | monthsAgo : Nat → AgeBucket
deriving DecidableEq, Repr

/-- Relative-age bucketing of `all_reports` (`src/app.py` lines 209-227),
on a whole number of elapsed seconds: `< 60` seconds-bucket, `< 3600`
minutes (`seconds // 60`), `< 86400` hours (`seconds // 3600`), then
`diff.days < 30` days (`diff.days = seconds // 86400`), else months
(`floor(days / 30)`). -/
def ageBucket (s : Nat) : AgeBucket :=
  if s < 60 then AgeBucket.secondsAgo s
  else if s < 3600 then AgeBucket.minutesAgo (s / 60)
  else if s < 86400 then AgeBucket.hoursAgo (s / 3600)
  else if s / 86400 < 30 then AgeBucket.daysAgo (s / 86400)
  else AgeBucket.monthsAgo (s / 86400 / 30)

/-- Rendering of a bucket to the feed's `time` string. -/
def renderAge : AgeBucket → String
  | AgeBucket.secondsAgo n => toString n ++ "초 전"
  | AgeBucket.minutesAgo n => toString n ++ "분 전"
  | AgeBucket.hoursAgo n => toString n ++ "시간 전"
  | AgeBucket.daysAgo n => toString n ++ "일 전"
  | AgeBucket.monthsAgo n => toString n ++ "달 전"

/-! ### Concrete stores and requests used by witnesses -/

/-- Concrete three-row store: two pending `'신고'` reports at location
`"A"` and one already-dispatched row at `"A"`. -/
def dispatchExDb : List Report :=
  [ { id := 1, user_id := "u1", type := "신고", photo_filename := none,
      location := some "A", lat := none, lng := none, timestamp := "t1",
      ai_stage := some 2, extra := "", dispatch_user_id := none,
      for_userpage_type := "신고", for_userpage_stage := some 2 },
    { id := 2, user_id := "u2", type := "신고", photo_filename := none,
      location := some "A", lat := none, lng := none, timestamp := "t2",
      ai_stage := some 3, extra := "", dispatch_user_id := none,
      for_userpage_type := "신고", for_userpage_stage := some 3 },
    { id := 3, user_id := "u3", type := "출동", photo_filename := none,
      location := some "A", lat := none, lng := none, timestamp := "t3",
      ai_stage := some 1, extra := "", dispatch_user_id := some "d1",
      for_userpage_type := "출동", for_userpage_stage := some 1 } ]

/-- Concrete one-row store holding the pending report with id 1. -/
def adminExDb : List Report :=
  [ { id := 1, user_id := "u1", type := "신고", photo_filename := none,
      location := some "A", lat := none, lng := none, timestamp := "t1",
      ai_stage := some 2, extra := "", dispatch_user_id := none,
      for_userpage_type := "신고", for_userpage_stage := some 2 } ]

/-- Concrete one-row store whose only report has id 1; id 2 is absent. -/
def adminMissingDb : List Report :=
  [ { id := 1, user_id := "u1", type := "신고", photo_filename := none,
      location := some "A", lat := none, lng := none, timestamp := "t1",
      ai_stage := some 2, extra := "", dispatch_user_id := none,
      for_userpage_type := "신고", for_userpage_stage := some 2 } ]

/-- Concrete `POST /api/report` body with no `location` field. -/
def reqNoLoc : ReportRequest :=
  { user_id := some "u1", type := some "신고",
    photo_filename := some "p.jpg", location := none, lat := none,
    lng := none, timestamp := some "2024-01-01T00:00:00",
    ai_stage := some 2, extra := some "", dispatch_user_id := none,
    for_userpage_type := none, for_userpage_stage := none }

/-- Concrete fully-populated Submit body without `for_userpage_*` fields. -/
def reqFull : ReportRequest :=
  { user_id := some "u2", type := some "신고",
    photo_filename := some "x.png", location := some "Seoul", lat := none,
    lng := none, timestamp := some "ts1", ai_stage := some 2,
    extra := some "e", dispatch_user_id := none,
    for_userpage_type := none, for_userpage_stage := none }

/-- Concrete two-row store for the frame property: ids 1 and 2. -/
def frameExDb : List Report :=
  [ { id := 1, user_id := "u1", type := "신고", photo_filename := none,
      location := some "A", lat := none, lng := none, timestamp := "t1",
      ai_stage := some 2, extra := "", dispatch_user_id := none,
      for_userpage_type := "신고", for_userpage_stage := some 2 },
    { id := 2, user_id := "u2", type := "출동", photo_filename := none,
      location := some "B", lat := none, lng := none, timestamp := "t2",
      ai_stage := some 1, extra := "", dispatch_user_id := some "d1",
      for_userpage_type := "출동", for_userpage_stage := some 1 } ]

/-! ## Theorems -/

/-- SQL equality against a non-`NULL` literal holds exactly on the matching
non-`NULL` value. -/
theorem sqlEq_some_iff {α : Type} [DecidableEq α] (x : Option α) (a : α) :
    sqlEq x (some a) = true ↔ x = some a := by
  cases x <;> simp [sqlEq]

/-- C1. For every store state and every call `Dispatch(location = L,
dispatch_user_id = U)`: the call succeeds, the store keeps its length, every
row with `type = '신고'` (`REPORT`) whose `location` equals `some L` by
exact string equality transitions in place to `type = '출동'`
(`DISPATCHED`), `ai_stage = 1`, `dispatch_user_id = U` (all matching rows),
every other row is unchanged, and when no row matches the whole store is
unchanged (silent no-op). -/
theorem dispatch_bulk_update (db : List Report) (L : String)
    (U : Option String) :
    (update_report db (some L) U).1 = ApiStatus.ok
  ∧ (update_report db (some L) U).2.length = db.length
  ∧ (∀ i, ∀ h : i < db.length,
      ((db.get ⟨i, h⟩).type = "신고" → (db.get ⟨i, h⟩).location = some L →
        (update_report db (some L) U).2[i]? =
          some { db.get ⟨i, h⟩ with
                  type := "출동"
                  ai_stage := some 1
                  dispatch_user_id := U })
      ∧ (¬ ((db.get ⟨i, h⟩).type = "신고" ∧
            (db.get ⟨i, h⟩).location = some L) →
        (update_report db (some L) U).2[i]? = some (db.get ⟨i, h⟩)))
  ∧ ((∀ r ∈ db, ¬ (r.type = "신고" ∧ r.location = some L)) →
      (update_report db (some L) U).2 = db) := by
  refine ⟨rfl, by simp [update_report], ?_, ?_⟩
  · intro i h
    have hget : (update_report db (some L) U).2[i]? =
        some (dispatchRow (some L) U (db.get ⟨i, h⟩)) := by
      show (db.map (dispatchRow (some L) U))[i]? = _
      rw [List.getElem?_map, List.getElem?_eq_getElem h]
      rfl
    constructor
    · intro ht hl
      rw [hget]
      unfold dispatchRow
      rw [if_pos ⟨by rw [hl]; exact (sqlEq_some_iff _ _).mpr rfl, ht⟩]
    · intro hn
      rw [hget]
      unfold dispatchRow
      rw [if_neg]
      intro hc
      exact hn ⟨hc.2, (sqlEq_some_iff _ _).mp hc.1⟩
  · intro hall
    show db.map (dispatchRow (some L) U) = db
    conv_rhs => rw [← List.map_id db]
    apply List.map_congr_left
    intro r hr
    unfold dispatchRow
    rw [if_neg]
    · rfl
    · intro hc
      exact hall r hr ⟨hc.2, (sqlEq_some_iff _ _).mp hc.1⟩

/-- Witness for C1: on the concrete store, the matching row at index 0 is
rewritten, the non-matching row at index 2 is untouched, and a dispatch
against an empty store is a no-op. -/
theorem dispatch_bulk_update_witness :
    ((update_report dispatchExDb (some "A") (some "u9")).2[0]? =
      some { dispatchExDb.get ⟨0, by decide⟩ with
              type := "출동"
              ai_stage := some 1
              dispatch_user_id := some "u9" })
  ∧ ((update_report dispatchExDb (some "A") (some "u9")).2[2]? =
      some (dispatchExDb.get ⟨2, by decide⟩))
  ∧ (update_report [] (some "A") (some "u9")).2 = ([] : List Report) := by
  have h := dispatch_bulk_update dispatchExDb "A" (some "u9")
  have hnil := (dispatch_bulk_update [] "A" (some "u9")).2.2.2 (by simp)
  exact ⟨(h.2.2.1 0 (by decide)).1 (by decide) (by decide),
         (h.2.2.1 2 (by decide)).2 (by decide), hnil⟩

/-- Effect of a well-formed `admin_approve` call: with a nonzero id and a
decision in {3, 5} the call succeeds, every row carrying that id gets both
stage fields set to the decision, and every row of the old store still has
a row with its id in the new store. -/
theorem admin_approve_ok_parts (db : List Report) (rid d : Int)
    (h0 : rid ≠ 0) (hd : d = 3 ∨ d = 5) :
    (admin_approve db (some rid) (some d)).1 = ApiStatus.ok
  ∧ (∀ r ∈ (admin_approve db (some rid) (some d)).2, r.id = rid →
      r.ai_stage = some d ∧ r.for_userpage_stage = some d)
  ∧ (∀ r ∈ db, ∃ r2 ∈ (admin_approve db (some rid) (some d)).2,
      r2.id = r.id) := by
  have hcond : ¬ (¬ truthyId (some rid) = true ∨
      ((some d : Option Int) ≠ some 3 ∧ (some d : Option Int) ≠ some 5)) := by
    simp only [truthyId, not_or, not_and, not_not, Decidable.not_not]
    constructor
    · simp [h0]
    · intro hne3
      rcases hd with h | h
      · exact absurd (by rw [h]) hne3
      · rw [h]
  unfold admin_approve
  rw [if_neg hcond]
  refine ⟨rfl, ?_, ?_⟩
  · intro r hr hid
    simp only [List.mem_map] at hr
    obtain ⟨a, _, rfl⟩ := hr
    by_cases hc : sqlEq (some a.id) (some rid) = true
    · rw [if_pos hc]
      exact ⟨rfl, rfl⟩
    · rw [if_neg hc] at hid ⊢
      exact absurd ((sqlEq_some_iff (some a.id) rid).mpr (by rw [hid])) hc
  · intro r hr
    refine ⟨if sqlEq (some r.id) (some rid) = true then
        { r with ai_stage := some d, for_userpage_stage := some d }
      else r, List.mem_map_of_mem _ hr, ?_⟩
    by_cases hc : sqlEq (some r.id) (some rid) = true
    · rw [if_pos hc]
    · rw [if_neg hc]

/-- C2. For every report id present in the store (ids are
`AUTOINCREMENT`-assigned, hence positive) and every decision `d ∈ {3, 5}`,
`AdminDecide(id, d)` succeeds and sets both `ai_stage` and
`for_userpage_stage` of every row with that id to `d`, regardless of the
row's current stage; the targeted id is still present afterwards; and
`AdminDecide(id, 3)` followed by `AdminDecide(id, 5)` leaves
`ai_stage = 5` (last write wins, no transition guard). -/
theorem admin_decide_sets_both_stages (db : List Report) (rid d : Int)
    (hrid : 0 < rid) (hd : d = 3 ∨ d = 5) (hmem : ∃ r ∈ db, r.id = rid) :
    (admin_approve db (some rid) (some d)).1 = ApiStatus.ok
  ∧ (∀ r ∈ (admin_approve db (some rid) (some d)).2, r.id = rid →
      r.ai_stage = some d ∧ r.for_userpage_stage = some d)
  ∧ (∃ r ∈ (admin_approve db (some rid) (some d)).2, r.id = rid)
  ∧ (∀ r ∈ (admin_approve (admin_approve db (some rid) (some 3)).2
        (some rid) (some 5)).2,
      r.id = rid → r.ai_stage = some 5 ∧ r.for_userpage_stage = some 5) := by
  have h0 : rid ≠ 0 := by omega
  obtain ⟨hok, hset, hids⟩ := admin_approve_ok_parts db rid d h0 hd
  refine ⟨hok, hset, ?_, ?_⟩
  · obtain ⟨r, hr, hid⟩ := hmem
    obtain ⟨r2, hr2, hid2⟩ := hids r hr
    exact ⟨r2, hr2, by rw [hid2, hid]⟩
  · exact (admin_approve_ok_parts (admin_approve db (some rid) (some 3)).2
      rid 5 h0 (Or.inr rfl)).2.1

/-- Witness for C2 on the one-row store: deciding 3 then 5 on id 1 ends
with both stage fields at 5. -/
theorem admin_decide_sets_both_stages_witness :
    (admin_approve adminExDb (some 1) (some 3)).1 = ApiStatus.ok
  ∧ (∀ r ∈ (admin_approve (admin_approve adminExDb (some 1) (some 3)).2
        (some 1) (some 5)).2,
      r.id = 1 → r.ai_stage = some 5 ∧ r.for_userpage_stage = some 5) := by
  have h := admin_decide_sets_both_stages adminExDb 1 3 (by norm_num)
    (Or.inl rfl) ⟨adminExDb.get ⟨0, by decide⟩, by decide, by decide⟩
  exact ⟨h.1, h.2.2.2⟩

/-- Counterexample to C3: no report with id 2 exists, yet
`AdminDecide(2, 3)` answers success and leaves the store unchanged — there
is no `NotFoundError` path in `admin_approve`. -/
theorem admin_decide_no_notfound_check :
    (∀ r ∈ adminMissingDb, r.id ≠ 2)
  ∧ (admin_approve adminMissingDb (some 2) (some 3)).1 = ApiStatus.ok
  ∧ (admin_approve adminMissingDb (some 2) (some 3)).2 = adminMissingDb := by
  refine ⟨by decide, rfl, by decide⟩

/-- C3 (amended). `AdminDecide(report_id, decision)` fails (with the single
400 `ValidationError` response) exactly when `report_id` is absent or the
falsy `0`, or `decision` is outside {3, 5}; a failing call leaves the store
unchanged. It never checks existence: a valid decision on a nonzero id that
matches no report succeeds as a silent no-op, so no `NotFoundError` is ever
raised. -/
theorem admin_decide_failure_iff (db : List Report) (rid d : Option Int) :
    ((admin_approve db rid d).1 = ApiStatus.err400 ↔
      rid = none ∨ rid = some 0 ∨ (d ≠ some 3 ∧ d ≠ some 5))
  ∧ ((admin_approve db rid d).1 = ApiStatus.err400 →
      (admin_approve db rid d).2 = db) := by
  constructor
  · unfold admin_approve
    split_ifs with h
    · refine ⟨fun _ => ?_, fun _ => rfl⟩
      rcases h with h | h
      · cases rid with
        | none => exact Or.inl rfl
        | some n =>
          simp only [truthyId, decide_eq_true_eq, Decidable.not_not] at h
          exact Or.inr (Or.inl (by rw [h]))
      · exact Or.inr (Or.inr h)
    · refine ⟨fun hc => absurd hc (by decide), fun hr => ?_⟩
      exfalso
      apply h
      rcases hr with h1 | h1 | h1
      · rw [h1]
        exact Or.inl (by decide)
      · rw [h1]
        exact Or.inl (by decide)
      · exact Or.inr h1
  · unfold admin_approve
    split_ifs with h
    · intro _
      rfl
    · intro hc
      exact absurd hc (by decide)

/-- Witness for C3 (amended): a decision of 4 is rejected with the store
untouched. -/
theorem admin_decide_failure_iff_witness :
    (admin_approve adminMissingDb (some 1) (some 4)).1 = ApiStatus.err400
  ∧ (admin_approve adminMissingDb (some 1) (some 4)).2 = adminMissingDb := by
  have h := admin_decide_failure_iff adminMissingDb (some 1) (some 4)
  have he : (admin_approve adminMissingDb (some 1) (some 4)).1 =
      ApiStatus.err400 := h.1.mpr (Or.inr (Or.inr (by decide)))
  exact ⟨he, h.2 he⟩

/-- Counterexample to C4: a Submit whose `location` is absent still answers
success and inserts a row — `save_report` performs no validation at all. -/
theorem submit_missing_location_still_inserts :
    reqNoLoc.location = none
  ∧ (save_report [] reqNoLoc "now0").1 = ApiStatus.ok
  ∧ (save_report [] reqNoLoc "now0").2.length = 1 :=
  ⟨rfl, rfl, rfl⟩

/-- C4 (amended). For every Submit call in which the `location` field is
absent, the operation nevertheless succeeds and appends one row whose
`location` is `NULL`: no `ValidationError` is raised and no insert is
skipped. -/
theorem submit_no_location_validation (db : List Report)
    (req : ReportRequest) (now : String) (h : req.location = none) :
    (save_report db req now).1 = ApiStatus.ok
  ∧ ∃ r : Report, (save_report db req now).2 = db ++ [r] ∧
      r.location = none := by
  unfold save_report
  exact ⟨rfl, _, rfl, h⟩

/-- Witness for C4 (amended): the row inserted for `reqNoLoc` has a `NULL`
location. -/
theorem submit_no_location_validation_witness :
    (save_report [] reqNoLoc "now0").1 = ApiStatus.ok
  ∧ (save_report [] reqNoLoc "now0").2.map Report.location = [none] := by
  obtain ⟨h1, r, hr, hl⟩ := submit_no_location_validation [] reqNoLoc
    "now0" rfl
  refine ⟨h1, ?_⟩
  rw [hr]
  simp [hl]

/-- C5. For every Submit call — a call of the spec's
`Submit(user_id, location, lat, lng, photo_ref, classifier_stage, extra)`,
whose parameter list carries no `for_userpage_*` override, so those JSON
fields are absent — the row it creates has `for_userpage_type` equal to its
`type` and `for_userpage_stage` equal to its `ai_stage`. -/
theorem submit_mirror_userpage (db : List Report) (req : ReportRequest)
    (now : String) (h1 : req.for_userpage_type = none)
    (h2 : req.for_userpage_stage = none) :
    ∃ r : Report, (save_report db req now).2 = db ++ [r] ∧
      r.for_userpage_type = r.type ∧ r.for_userpage_stage = r.ai_stage := by
  unfold save_report
  rw [h1, h2]
  exact ⟨_, rfl, rfl, rfl⟩

/-- Witness for C5: the row created for `reqFull` mirrors its `type` and
`ai_stage` into the `for_userpage_*` columns. -/
theorem submit_mirror_userpage_witness :
    (save_report [] reqFull "now0").2.map
      (fun r => decide (r.for_userpage_type = r.type ∧
        r.for_userpage_stage = r.ai_stage)) = [true] := by
  obtain ⟨r, hr, ht, hs⟩ := submit_mirror_userpage [] reqFull "now0" rfl rfl
  rw [hr]
  simp [ht, hs]

/-- C6. For every `AdminDecide` call that succeeds, the store keeps its
length, every row whose id differs from the target is entirely unchanged,
and a row carrying the target id changes only `ai_stage` and
`for_userpage_stage` (to the decision) — every other field, in particular
`type` and `for_userpage_type`, keeps its value. -/
theorem admin_decide_frame (db : List Report) (rid d : Option Int)
    (hok : (admin_approve db rid d).1 = ApiStatus.ok) :
    (admin_approve db rid d).2.length = db.length
  ∧ ∀ i, ∀ h : i < db.length,
      (¬ sqlEq (some (db.get ⟨i, h⟩).id) rid = true →
        (admin_approve db rid d).2[i]? = some (db.get ⟨i, h⟩))
    ∧ (sqlEq (some (db.get ⟨i, h⟩).id) rid = true →
        ∃ r2 : Report, (admin_approve db rid d).2[i]? = some r2
          ∧ r2.ai_stage = d ∧ r2.for_userpage_stage = d
          ∧ r2.id = (db.get ⟨i, h⟩).id
          ∧ r2.user_id = (db.get ⟨i, h⟩).user_id
          ∧ r2.type = (db.get ⟨i, h⟩).type
          ∧ r2.photo_filename = (db.get ⟨i, h⟩).photo_filename
          ∧ r2.location = (db.get ⟨i, h⟩).location
          ∧ r2.lat = (db.get ⟨i, h⟩).lat
          ∧ r2.lng = (db.get ⟨i, h⟩).lng
          ∧ r2.timestamp = (db.get ⟨i, h⟩).timestamp
          ∧ r2.extra = (db.get ⟨i, h⟩).extra
          ∧ r2.dispatch_user_id = (db.get ⟨i, h⟩).dispatch_user_id
          ∧ r2.for_userpage_type = (db.get ⟨i, h⟩).for_userpage_type) := by
  unfold admin_approve at hok ⊢
  split_ifs at hok ⊢ with hcond
  refine ⟨by simp, ?_⟩
  intro i h
  have hget : (db.map (fun r => if sqlEq (some r.id) rid = true then
      { r with ai_stage := d, for_userpage_stage := d } else r))[i]? =
      some (if sqlEq (some (db.get ⟨i, h⟩).id) rid = true then
        { db.get ⟨i, h⟩ with ai_stage := d, for_userpage_stage := d }
      else db.get ⟨i, h⟩) := by
    rw [List.getElem?_map, List.getElem?_eq_getElem h]
    rfl
  constructor
  · intro hne
    rw [hget, if_neg hne]
  · intro hyes
    rw [hget, if_pos hyes]
    exact ⟨_, rfl, rfl, rfl, rfl, rfl, rfl, rfl, rfl, rfl, rfl, rfl,
      rfl, rfl, rfl⟩

/-- Witness for C6: deciding id 1 on the two-row store leaves the row with
id 2 untouched and preserves the length. -/
theorem admin_decide_frame_witness :
    (admin_approve frameExDb (some 1) (some 3)).2.length = frameExDb.length
  ∧ (admin_approve frameExDb (some 1) (some 3)).2[1]? =
      some (frameExDb.get ⟨1, by decide⟩) := by
  have h := admin_decide_frame frameExDb (some 1) (some 3) rfl
  exact ⟨h.1, (h.2 1 (by decide)).1 (by decide)⟩

/-- C9. Registering a fresh `user_id` succeeds; registering the same
`user_id` again (any password) fails with the duplicate-id 400
(`ConflictError`) and leaves the user store unchanged; and a Login with
that `user_id` and the correct password then succeeds. Stated for every
digest function `hash` (SHA-256 in the source). -/
theorem register_then_login (hash : String → String) (users : List UserRow)
    (uid pw pw2 : String) (huid : uid ≠ "") (hpw : pw ≠ "")
    (hpw2 : pw2 ≠ "") (hnew : ∀ u ∈ users, u.user_id ≠ uid) :
    (register hash users (some uid) (some pw)).1 = RegResult.ok
  ∧ (register hash (register hash users (some uid) (some pw)).2
      (some uid) (some pw2)).1 = RegResult.errDuplicate
  ∧ (register hash (register hash users (some uid) (some pw)).2
      (some uid) (some pw2)).2 = (register hash users (some uid)
      (some pw)).2
  ∧ login hash (register hash users (some uid) (some pw)).2
      (some uid) (some pw) = LoginResult.ok := by
  have hany : users.any (fun u => decide (u.user_id = uid)) = false := by
    rw [List.any_eq_false]
    intro u hu
    simpa using hnew u hu
  have hreg : register hash users (some uid) (some pw) =
      (RegResult.ok, users ++ [{ user_id := uid, password := hash pw }]) := by
    simp only [register]
    rw [if_neg (by simp [huid, hpw]), if_neg (by simp [hany])]
  have hany2 : ((users ++ [{ user_id := uid, password := hash pw }] :
      List UserRow)).any (fun u => decide (u.user_id = uid)) = true := by
    simp [List.any_append]
  refine ⟨by rw [hreg], ?_, ?_, ?_⟩
  · rw [hreg]
    simp only [register]
    rw [if_neg (by simp [huid, hpw2]), if_pos hany2]
  · rw [hreg]
    simp only [register]
    rw [if_neg (by simp [huid, hpw2]), if_pos hany2]
  · rw [hreg]
    simp only [login]
    rw [if_neg (by simp [huid, hpw])]
    have hfindu : users.find? (fun u => decide (u.user_id = uid)) =
        none := by
      rw [List.find?_eq_none]
      intro u hu
      simpa using hnew u hu
    rw [List.find?_append, hfindu]
    simp

/-- Witness for C9 with the identity digest on an empty user store. -/
theorem register_then_login_witness :
    (register (fun s => s) [] (some "alice") (some "pw1")).1 = RegResult.ok
  ∧ (register (fun s => s) (register (fun s => s) [] (some "alice")
      (some "pw1")).2 (some "alice") (some "pw2")).1 =
      RegResult.errDuplicate
  ∧ login (fun s => s) (register (fun s => s) [] (some "alice")
      (some "pw1")).2 (some "alice") (some "pw1") = LoginResult.ok := by
  have h := register_then_login (fun s => s) [] "alice" "pw1" "pw2"
    (by decide) (by decide) (by decide) (by simp)
  exact ⟨h.1, h.2.1, h.2.2.2⟩

/-- C7. For every user_id and every store state, `Points(user_id)` equals
`report_count * 5000 + dispatch_count * 10000`, where the two counts are
computed with exactly the same filter predicates as `Stats(user)`: the
report side counts rows with that `user_id`, `for_userpage_type = '신고'`
(`REPORT`) and `for_userpage_stage = 3`; the dispatch side counts rows with
that `dispatch_user_id`, `type = '출동'` (`DISPATCHED`) and `ai_stage = 1`. -/
theorem user_point_eq_stats_formula (db : List Report) (u : String) :
    user_point db u =
      (user_stats db u).report_count * 5000 +
        (user_stats db u).dispatch_count * 10000
  ∧ (user_stats db u).report_count =
      db.countP (fun r => decide (r.user_id = u ∧
        r.for_userpage_type = "신고" ∧ r.for_userpage_stage = some 3))
  ∧ (user_stats db u).dispatch_count =
      db.countP (fun r => decide (r.dispatch_user_id = some u ∧
        r.type = "출동" ∧ r.ai_stage = some 1)) := by
  refine ⟨rfl, ?_, ?_⟩
  · rw [List.countP_eq_length_filter]
    rfl
  · rw [List.countP_eq_length_filter]
    show (db.filter (statsDispatchPred u)).length = _
    congr 1
    apply List.filter_congr
    intro r _
    cases h : r.dispatch_user_id <;> simp [statsDispatchPred, sqlEq, h]

/-- C8. For every non-negative whole-second elapsed age, the relative-age
bucket is: seconds iff the age is below 60 s, minutes iff it is in
[60 s, 1 h), hours iff it is in [1 h, 24 h), days iff it is at least 24 h
with fewer than 30 whole days, and otherwise months with value
`floor(days / 30)`. -/
theorem ageBucket_boundaries (s : Nat) :
    (ageBucket s = AgeBucket.secondsAgo s ↔ s < 60)
  ∧ (ageBucket s = AgeBucket.minutesAgo (s / 60) ↔ 60 ≤ s ∧ s < 3600)
  ∧ (ageBucket s = AgeBucket.hoursAgo (s / 3600) ↔ 3600 ≤ s ∧ s < 86400)
  ∧ (ageBucket s = AgeBucket.daysAgo (s / 86400) ↔
      86400 ≤ s ∧ s / 86400 < 30)
  ∧ (ageBucket s = AgeBucket.monthsAgo (s / 86400 / 30) ↔
      86400 ≤ s ∧ 30 ≤ s / 86400) := by
  unfold ageBucket
  split_ifs with h1 h2 h3 h4 <;> refine ⟨?_, ?_, ?_, ?_, ?_⟩ <;>
    simp_all <;> omega

/-- Idempotence of the row-level dispatch update: once a row has been
dispatched its `type` is `'출동'`, so the `WHERE type='신고'` clause can no
longer match it. -/
theorem dispatchRow_idem (L U : Option String) (r : Report) :
    dispatchRow L U (dispatchRow L U r) = dispatchRow L U r := by
  by_cases h : sqlEq r.location L = true ∧ r.type = "신고"
  · simp [dispatchRow, h]
  · simp only [dispatchRow]
    rw [if_neg h, if_neg h]

/-- C10. Dispatch is idempotent: for every store state and arguments
`(L, U)`, applying `Dispatch(L, U)` twice yields the same store as applying
it once, because the first application leaves no `type = '신고'` row at
location `L` for the second to match. -/
theorem update_report_idempotent (db : List Report) (L U : Option String) :
    update_report (update_report db L U).2 L U = update_report db L U := by
  unfold update_report
  rw [Prod.mk.injEq]
  refine ⟨rfl, ?_⟩
  rw [List.map_map]
  apply List.map_congr_left
  intro r _
  exact dispatchRow_idem L U r

end RailBack
